import Mathlib

/-!
Shallow embedding of the offline ML training pipeline `src/ml/train.py`
(`train_model` plus the module-level `FEATURE_NAMES` schema constant).

The pipeline is modelled as a pure function of an explicit environment:
whether the input file exists, the parsed CSV table found at the path, the
wall-clock time read by `time.time()`, and whether the external
`convert_sklearn` converter fails.  File writes are recorded as an ordered
event trace; printed lines are recorded as a list of strings.

External library behaviour that is not part of this repository
(`pandas.read_csv` parsing, `sklearn.model_selection.train_test_split`,
`IsolationForest` numerics, `skl2onnx.convert_sklearn`) is modelled from the
spec at the granularity the spec fixes: split sizes, determinism,
error-raising conditions, and the declared ONNX input tensor.
-/

/-- A parsed CSV cell.  IEEE-754 non-finite values are modelled symbolically;
finite values are rationals (the claims never depend on rounding). -/
inductive Val where
  | finite (q : ℚ)
  | posInf
  | negInf
  | nan
deriving DecidableEq

def Val.isFinite : Val → Bool
  | .finite _ => true
  | _ => false

def Val.isNaN : Val → Bool
  | .nan => true
  | _ => false

abbrev Row := List Val

/-- `train.py` lines 13-41: the feature schema, the contract between the C++
feature extractor and the Python model. -/
def FEATURE_NAMES : List String :=
  [ "REQUEST_TIME_S"
  , "BYTES_SENT"
  , "HTTP_STATUS_4XX"
  , "HTTP_STATUS_5XX"
  , "IS_UA_MISSING"
  , "IS_UA_HEADLESS"
  , "IS_UA_KNOWN_BAD"
  , "IS_UA_CYCLING"
  , "IS_PATH_NEW_FOR_IP"
  , "IP_REQ_TIME_ZSCORE"
  , "IP_BYTES_SENT_ZSCORE"
  , "IP_ERROR_EVENT_ZSCORE"
  , "IP_REQ_VOL_ZSCORE"
  , "PATH_REQ_TIME_ZSCORE"
  , "PATH_BYTES_SENT_ZSCORE"
  , "PATH_ERROR_EVENT_ZSCORE"
  , "SESSION_DURATION_S"
  , "SESSION_REQ_COUNT"
  , "SESSION_UNIQUE_PATH_COUNT"
  , "SESSION_ERROR_4XX_COUNT"
  , "SESSION_ERROR_5XX_COUNT"
  , "SESSION_FAILED_LOGIN_COUNT"
  , "SESSION_AVG_TIME_BETWEEN_REQS_S"
  , "SESSION_POST_TO_GET_RAT\x49O"
  , "SESSION_UA_CHANGE_COUNT"
  , "SESSION_BYTES_SENT_MEAN"
  , "SESSION_REQ_TIME_MEAN"
  ]

/-- `df.replace([np.inf, -np.inf], np.nan)` acting on one cell
(`train.py` line 70). -/
def replaceInfCell : Val → Val
  | .posInf => .nan
  | .negInf => .nan
  | v => v

def replaceInf (r : Row) : Row := r.map replaceInfCell

/-- `df.dropna()` (`train.py` line 71): drop every row containing a NaN. -/
def dropna (rows : List Row) : List Row :=
  rows.filter (fun r => !(r.any Val.isNaN))

/-- `train.py` lines 70-71: the Data Cleaner — normalise infinities to NaN,
then drop rows containing any NaN. -/
def clean (rows : List Row) : List Row :=
  dropna (rows.map replaceInf)

theorem isNaN_replaceInfCell (v : Val) :
    Val.isNaN (replaceInfCell v) = !v.isFinite := by
  cases v <;> rfl

theorem replaceInf_of_allFinite (r : Row) (h : r.all Val.isFinite = true) :
    replaceInf r = r := by
  induction r with
  | nil => rfl
  | cons v t ih =>
    simp only [List.all_cons, Bool.and_eq_true] at h
    simp only [replaceInf, List.map_cons]
    have hv : replaceInfCell v = v := by cases v <;> first | rfl | cases h.1
    rw [hv, show List.map replaceInfCell t = t from ih h.2]

theorem keep_iff_allFinite (r : Row) :
    (!(replaceInf r).any Val.isNaN) = r.all Val.isFinite := by
  induction r with
  | nil => rfl
  | cons v t ih =>
    simp only [replaceInf, List.map_cons, List.any_cons, List.all_cons,
      Bool.not_or, isNaN_replaceInfCell, Bool.not_not] at *
    rw [ih]

/-- The clean step is exactly row-wise filtering by all-finite. -/
theorem clean_eq_filter (rows : List Row) :
    clean rows = rows.filter (fun r => r.all Val.isFinite) := by
  induction rows with
  | nil => rfl
  | cons r rest ih =>
    simp only [clean, dropna, List.map_cons, List.filter_cons] at *
    rw [keep_iff_allFinite]
    cases hr : r.all Val.isFinite with
    | false => simpa [hr] using ih
    | true => simpa [hr, replaceInf_of_allFinite r hr] using ih

theorem filter_length_sub {α : Type} (p : α → Bool) (l : List α) :
    (l.filter p).length = l.length - l.countP (fun a => !(p a)) := by
  induction l with
  | nil => rfl
  | cons a t ih =>
    have hc : t.countP (fun a => !(p a)) ≤ t.length := List.countP_le_length _
    cases h : p a
    all_goals simp [List.filter_cons, List.countP_cons, h, ih]
    all_goals omega

/-- Python exception classes raised (uncaught) inside `train_model`, named
after the spec's error taxonomy (section 7).  `emptyData` is
`pandas.errors.EmptyDataError` from `read_csv` on a file with no rows;
`trainingFailure` is the `ValueError` sklearn raises when the requested split
would leave the train or test set empty; `serializationFailure` is a
`convert_sklearn` failure (spec 4.7). -/
inductive PyError where
  | emptyData
  | trainingFailure
  | serializationFailure
deriving DecidableEq

/-- How the `train_model` call ends: a normal `return` (value `None`), or an
uncaught exception propagating to the caller. -/
inductive Outcome where
  | returned
  | raised (e : PyError)
deriving DecidableEq

/-- File-write events, in program order (`train.py` lines 101-102 and
115-116). -/
inductive Ev where
  | wroteModel
  | wroteMetadata
deriving DecidableEq

/-- The contents of the input file as a parsed table: `pandas.read_csv`
output, one `Row` per CSV line. -/
structure CsvTable where
  rows : List Row
deriving DecidableEq

/-- `df.shape[1]`: the parsed column count (width of the first row; pandas
requires a rectangular table, see `CsvTable.Rect`). -/
def CsvTable.ncols (t : CsvTable) : Nat :=
  ((t.rows.head?).map List.length).getD 0

/-- Well-formed (rectangular) table: every row has the parsed column count. -/
def CsvTable.Rect (t : CsvTable) : Prop :=
  ∀ r ∈ t.rows, r.length = t.ncols

/-- `pd.read_csv(data_path, header=None)` (`train.py` line 58): yields the
parsed rows; raises `EmptyDataError` when the file has no rows. -/
def read_csv (t : CsvTable) : Except PyError (List Row) :=
  if t.rows.isEmpty then .error .emptyData else .ok t.rows

/-- `random_state=42` (`train.py` lines 77 and 86). -/
def RANDOM_STATE : Nat := 42

/-- `test_size=0.3` as the exact test-set count: `ceil(0.3 * n)`. -/
def nTest (n : Nat) : Nat := (3 * n + 9) / 10

/-- Modelled from the spec: the Splitter's "fixed pseudo-random seed"
(sklearn shuffling via numpy `RandomState(42)` is external library code).
A seeded linear-congruential key used to shuffle row indices. -/
def shuffleKey (i : Nat) : Nat :=
  (1103515245 * i + 12345 + 2654435761 * RANDOM_STATE) % 2 ^ 31

/-- Modelled from the spec: the seed-determined permutation of the row
indices `0..n-1` used by the Splitter.  Any fixed permutation satisfies the
spec's requirements (deterministic membership, disjoint parts, sizes). -/
def shuffledIndices (n : Nat) : List Nat :=
  List.insertionSort (fun a b => shuffleKey a ≤ shuffleKey b) (List.range n)

/-- Row selection by index list (out-of-range indices never occur). -/
def select (rows : List Row) (is : List Nat) : List Row :=
  is.map (fun i => rows.getD i [])

/-- Modelled from the spec: `train_test_split(df, test_size=0.3,
random_state=42)` (`train.py` line 77).  Returns `(X_train, X_test)`;
raises `ValueError` when the resulting train or test set would be empty
(sklearn `_validate_shuffle_split`). -/
def train_test_split (rows : List Row) :
    Except PyError (List Row × List Row) :=
  let n := rows.length
  let nt := nTest n
  if n - nt = 0 ∨ nt = 0 then .error .trainingFailure
  else
    let p := shuffledIndices n
    .ok (select rows (p.drop nt), select rows (p.take nt))

/-- Modelled from the spec: the fitted ensemble (`IsolationForest(...)` /
`model.fit(X_train)`, `train.py` lines 80-88).  The ensemble's internal
trees are external library state; the claims only depend on what was fitted
on, so the model is represented by its training set. -/
structure AnomalyModel where
  trainRows : List Row
deriving DecidableEq

def IsolationForest.fit (rows : List Row) : AnomalyModel :=
  ⟨rows⟩

/-- Modelled from the spec: `model.score_samples(X_test)` (`train.py` line
91).  One continuous anomaly score per sample; the numeric values are
external floating-point computations no claim depends on, modelled as an
unspecified constant per sample. -/
def score_samples (_m : AnomalyModel) (rows : List Row) : List ℚ :=
  rows.map (fun _ => 0)

/-- `np.mean` over the test scores (`train.py` line 92). -/
def npMean (l : List ℚ) : ℚ := l.sum / (l.length : ℚ)

inductive ElemType where
  | float32
deriving DecidableEq

/-- One declared graph input: name, element type, shape with `none` for the
variable (batch) dimension — `FloatTensorType([None, num_features])`. -/
structure TensorDecl where
  name : String
  elemType : ElemType
  shape : List (Option Nat)
deriving DecidableEq

/-- The exported ONNX graph, abstracted to its declared inputs. -/
structure OnnxModel where
  inputs : List TensorDecl
deriving DecidableEq

/-- `convert_sklearn(model, initial_types=initial_type, target_opset=13)`
(`train.py` lines 97-99).  Modelled from the spec: the converter is external;
it may raise `SerializationFailure` when the model is not representable
(spec 4.7), an outcome supplied by the environment flag `convertFails`.
On success the graph declares exactly the given initial types. -/
def convert_sklearn (_m : AnomalyModel) (numFeatures : Nat)
    (convertFails : Bool) : Except PyError OnnxModel :=
  if convertFails then .error .serializationFailure
  else .ok ⟨[⟨"float_input", .float32, [none, some numFeatures]⟩]⟩

/-- One printed stdout line, one constructor per `print` in `train.py`
(f-string interpolants carried as constructor arguments; the advisory
"Please run the C++ application..." and "Check if C++ Feature enum..."
follow-up lines are folded into their preceding FATAL constructor). -/
inductive Line where
  | pipelineStarted
  | loadingFrom (path : String)
  | fatalDataFileNotFound (path : String)
  | fatalFeatureCountMismatch
  | mismatchDetail (expected found : Nat)
  | loadedRaw (n : Nat)
  | usingAfterClean (n : Nat)
  | warnSmallDataset
  | trainingOn (n : Nat)
  | evaluating
  | avgScore (q : ℚ)
  | convertingToOnnx
  | modelSaved (path : String)
  | metadataSaved (path : String)
  | pipelineFinished
deriving DecidableEq

/-- Lines whose source text starts with `FATAL ERROR` (`train.py` lines 52
and 60). -/
def Line.isFatalErr : Line → Bool
  | .fatalDataFileNotFound _ => true
  | .fatalFeatureCountMismatch => true
  | _ => false

/-- The metadata record (`train.py` lines 105-113), with exactly the fields
the source constructs. -/
structure Metadata where
  model_type : String
  training_timestamp_utc : Nat
  training_data_path : String
  training_samples : Nat
  num_features : Nat
  feature_names_ordered : List String
  average_anomaly_score_test : ℚ
deriving DecidableEq

/-- The observable result of one `train_model` call: how the call ended,
what was printed, and the ordered trace of file writes, plus the written
artifacts (when written). -/
structure TrainResult where
  outcome : Outcome
  printed : List Line
  warned : Bool
  events : List Ev
  onnx : Option OnnxModel
  metadata : Option Metadata
deriving DecidableEq

/-- `train_model(data_path, model_output_path, metadata_output_path)`
(`train.py` lines 44-118), as a pure function of the environment: whether
`data_path` exists, the parsed table at that path, the epoch-seconds clock
value, and whether the external ONNX converter fails. -/
def train_model (data_path model_output_path metadata_output_path : String)
    (fileExists : Bool) (t : CsvTable) (now : Nat) (convertFails : Bool) :
    TrainResult :=
  let started : List Line := [.pipelineStarted, .loadingFrom data_path]
  if !fileExists then
    { outcome := .returned
    , printed := started ++ [.fatalDataFileNotFound data_path]
    , warned := false, events := [], onnx := none, metadata := none }
  else
    match read_csv t with
    | .error e =>
      { outcome := .raised e, printed := started
      , warned := false, events := [], onnx := none, metadata := none }
    | .ok rows =>
      if t.ncols ≠ FEATURE_NAMES.length then
        { outcome := .returned
        , printed := started ++
            [.fatalFeatureCountMismatch,
             .mismatchDetail FEATURE_NAMES.length t.ncols]
        , warned := false, events := [], onnx := none, metadata := none }
      else
        let df := clean rows
        let warned := df.length < 200
        let warnLines : List Line :=
          if warned then [.warnSmallDataset] else []
        let printed1 := started ++
          [.loadedRaw rows.length, .usingAfterClean df.length] ++ warnLines
        match train_test_split df with
        | .error e =>
          { outcome := .raised e, printed := printed1
          , warned := warned, events := [], onnx := none, metadata := none }
        | .ok (xtrain, xtest) =>
          let model := IsolationForest.fit xtrain
          let avg := npMean (score_samples model xtest)
          let printed2 := printed1 ++
            [.trainingOn xtrain.length, .evaluating, .avgScore avg,
             .convertingToOnnx]
          match convert_sklearn model FEATURE_NAMES.length convertFails with
          | .error e =>
            { outcome := .raised e, printed := printed2
            , warned := warned, events := [], onnx := none, metadata := none }
          | .ok om =>
            let md : Metadata :=
              { model_type := "IsolationForest"
              , training_timestamp_utc := now
              , training_data_path := data_path
              , training_samples := xtrain.length
              , num_features := FEATURE_NAMES.length
              , feature_names_ordered := FEATURE_NAMES
              , average_anomaly_score_test := avg }
            { outcome := .returned
            , printed := printed2 ++
                [.modelSaved model_output_path,
                 .metadataSaved metadata_output_path, .pipelineFinished]
            , warned := warned
            , events := [.wroteModel, .wroteMetadata]
            , onnx := some om, metadata := some md }

/-- The exit status of a script whose `__main__` body is a single call to
`train_model` (`train.py` lines 121-126): 0 when the call returns, nonzero
when an exception propagates. -/
def exitCode (r : TrainResult) : Nat :=
  match r.outcome with
  | .returned => 0
  | .raised _ => 1

/-- A human-readable diagnostic reaches the operator: either the function
printed a `FATAL ERROR` line, or an uncaught exception's traceback is
printed by the interpreter. -/
def diagnosticProduced (r : TrainResult) : Bool :=
  r.printed.any Line.isFatalErr
    || (match r.outcome with | .raised _ => true | .returned => false)

/-- Default paths of the `__main__` entry point (`train.py` lines 123-125). -/
def DATA_PATH : String := "data/training_features.csv"

def MODEL_PATH : String := "src/models/isolation_forest.onnx"

def METADATA_PATH : String := "src/models/isolation_forest.json"

/-- C2: for every ingested Dataset, cleaning drops exactly the rows containing
a non-finite value, whole rows at a time, and every surviving row is fully
finite and is an unmodified row of the input (no field-wise imputation). -/
theorem C2_cleaner_drops_nonfinite_rows (rows : List Row) :
    (clean rows).length
        = rows.length - rows.countP (fun r => r.any (fun v => !v.isFinite)) ∧
    (∀ r ∈ clean rows, r.all Val.isFinite = true) ∧
    (∀ r ∈ clean rows, r ∈ rows) := by
  have hfilter := clean_eq_filter rows
  refine ⟨?_, ?_, ?_⟩
  · rw [hfilter, filter_length_sub]
    congr 1
    apply List.countP_congr
    intro r _
    induction r with
    | nil => simp
    | cons v t ih => cases hv : v.isFinite <;> cases v <;> simp_all
  · intro r hr
    rw [hfilter] at hr
    exact (List.mem_filter.mp hr).2
  · intro r hr
    rw [hfilter] at hr
    exact (List.mem_filter.mp hr).1

theorem shuffledIndices_perm (n : Nat) :
    (shuffledIndices n).Perm (List.range n) :=
  List.perm_insertionSort _ _

theorem shuffledIndices_length (n : Nat) : (shuffledIndices n).length = n := by
  rw [(shuffledIndices_perm n).length_eq, List.length_range]

theorem shuffledIndices_nodup (n : Nat) : (shuffledIndices n).Nodup :=
  ((shuffledIndices_perm n).nodup_iff).mpr (List.nodup_range n)

theorem select_length (rows : List Row) (is : List Nat) :
    (select rows is).length = is.length := by
  simp [select]

theorem nTest_pos (n : Nat) (h : 1 ≤ n) : 1 ≤ nTest n := by
  unfold nTest; omega

theorem nTest_lt (n : Nat) (h : 2 ≤ n) : nTest n < n := by
  unfold nTest; omega

/-- With at least two cleaned rows, the split succeeds and returns
`(X_train, X_test)` selected along the seed permutation. -/
theorem train_test_split_ok (rows : List Row) (h2 : 2 ≤ rows.length) :
    train_test_split rows =
      .ok (select rows ((shuffledIndices rows.length).drop (nTest rows.length)),
           select rows ((shuffledIndices rows.length).take (nTest rows.length))) := by
  unfold train_test_split
  rw [if_neg]
  have h1 := nTest_pos rows.length (by omega)
  have hlt := nTest_lt rows.length h2
  omega

/-- With at most one cleaned row, sklearn raises: the train or the test part
would be empty. -/
theorem train_test_split_err (rows : List Row) (h : rows.length ≤ 1) :
    train_test_split rows = .error .trainingFailure := by
  unfold train_test_split
  rw [if_pos]
  unfold nTest
  omega

theorem sum_map_zero {α : Type} (l : List α) :
    (l.map (fun _ => (0 : ℚ))).sum = 0 := by
  induction l <;> simp [*]

theorem npMean_score_samples (m : AnomalyModel) (l : List Row) :
    npMean (score_samples m l) = 0 := by
  simp [npMean, score_samples, sum_map_zero]

/-- The full observable result of a successful pipeline run on the table at
`data_path` (obtained below as the value of `train_model` whenever no stage
fails). -/
def successResult (dp mp mdp : String) (t : CsvTable) (now : Nat) :
    TrainResult :=
  let n := (clean t.rows).length
  let ntr := n - nTest n
  { outcome := .returned
  , printed := [.pipelineStarted, .loadingFrom dp, .loadedRaw t.rows.length,
      .usingAfterClean n] ++ (if n < 200 then [.warnSmallDataset] else []) ++
      [.trainingOn ntr, .evaluating, .avgScore 0, .convertingToOnnx,
       .modelSaved mp, .metadataSaved mdp, .pipelineFinished]
  , warned := decide (n < 200)
  , events := [.wroteModel, .wroteMetadata]
  , onnx := some ⟨[⟨"float_input", .float32, [none, some FEATURE_NAMES.length]⟩]⟩
  , metadata := some
      { model_type := "IsolationForest"
      , training_timestamp_utc := now
      , training_data_path := dp
      , training_samples := ntr
      , num_features := FEATURE_NAMES.length
      , feature_names_ordered := FEATURE_NAMES
      , average_anomaly_score_test := 0 } }

theorem read_csv_ok (t : CsvTable) (hne : t.rows ≠ []) :
    read_csv t = .ok t.rows := by
  simp [read_csv, hne]

/-- When the file exists, parses to a nonempty table of schema width, the
cleaned data has at least two rows, and the converter succeeds, the pipeline
completes and produces `successResult`. -/
theorem train_model_succeeds (dp mp mdp : String) (t : CsvTable) (now : Nat)
    (hne : t.rows ≠ []) (hcols : t.ncols = FEATURE_NAMES.length)
    (h2 : 2 ≤ (clean t.rows).length) :
    train_model dp mp mdp true t now false = successResult dp mp mdp t now := by
  have hrc := read_csv_ok t hne
  have hsp := train_test_split_ok (clean t.rows) h2
  have hxl : (select (clean t.rows)
      ((shuffledIndices (clean t.rows).length).drop (nTest (clean t.rows).length))).length
      = (clean t.rows).length - nTest (clean t.rows).length := by
    rw [select_length, List.length_drop, shuffledIndices_length]
  simp only [train_model, hrc, hcols, hsp, convert_sklearn, Bool.not_true,
    if_neg, npMean_score_samples, successResult]
  simp [hxl, hcols, npMean_score_samples]

theorem successResult_no_fatal (dp mp mdp : String) (t : CsvTable)
    (now : Nat) :
    (successResult dp mp mdp t now).printed.any Line.isFatalErr = false := by
  by_cases hn : (clean t.rows).length < 200 <;>
    simp [successResult, Line.isFatalErr, hn]

/-- Every run of the pipeline either fully succeeds (producing
`successResult`, which writes the model then the metadata) or writes no file
at all and surfaces a diagnostic. -/
theorem train_model_dichotomy (dp mp mdp : String) (fe : Bool)
    (t : CsvTable) (now : Nat) (cf : Bool) :
    (train_model dp mp mdp fe t now cf = successResult dp mp mdp t now ∧
      fe = true ∧ cf = false) ∨
    ((train_model dp mp mdp fe t now cf).events = [] ∧
      (train_model dp mp mdp fe t now cf).onnx = none ∧
      (train_model dp mp mdp fe t now cf).metadata = none ∧
      diagnosticProduced (train_model dp mp mdp fe t now cf) = true) := by
  cases fe with
  | false =>
    right
    simp [train_model, diagnosticProduced, Line.isFatalErr]
  | true =>
    by_cases hne : t.rows = []
    · right
      have hrc : read_csv t = .error .emptyData := by simp [read_csv, hne]
      simp [train_model, hrc, diagnosticProduced]
    · have hrc := read_csv_ok t hne
      by_cases hcols : t.ncols = FEATURE_NAMES.length
      · by_cases h2 : 2 ≤ (clean t.rows).length
        · cases cf with
          | false => exact .inl ⟨train_model_succeeds dp mp mdp t now hne hcols h2, rfl, rfl⟩
          | true =>
            right
            have hsp := train_test_split_ok (clean t.rows) h2
            simp [train_model, hrc, hcols, hsp, convert_sklearn,
              diagnosticProduced]
        · right
          have hsp := train_test_split_err (clean t.rows) (by omega)
          simp [train_model, hrc, hcols, hsp, diagnosticProduced]
      · right
        simp [train_model, hrc, hcols, diagnosticProduced, Line.isFatalErr]

/-- A 27-column all-finite sample row, used to instantiate theorems with
hypotheses at concrete inputs. -/
def row27 : Row := List.replicate 27 (Val.finite 0)

/-- C1: for every existing input file parsing to a (nonempty, rectangular)
table whose column count differs from the Feature Schema length (27 names),
`train_model` halts reporting the feature-count mismatch and writes neither
the model artifact file nor the metadata file. -/
theorem C1_schema_mismatch_halts_no_output
    (dp mp mdp : String) (t : CsvTable) (now : Nat) (cf : Bool)
    (hne : t.rows ≠ []) (_hrect : t.Rect) (hcols : t.ncols ≠ 27) :
    FEATURE_NAMES.length = 27 ∧
    Line.fatalFeatureCountMismatch ∈ (train_model dp mp mdp true t now cf).printed ∧
    (train_model dp mp mdp true t now cf).outcome = .returned ∧
    (train_model dp mp mdp true t now cf).events = [] ∧
    (train_model dp mp mdp true t now cf).onnx = none ∧
    (train_model dp mp mdp true t now cf).metadata = none := by
  have hflen : FEATURE_NAMES.length = 27 := by decide
  have hrc := read_csv_ok t hne
  have hcols' : t.ncols ≠ FEATURE_NAMES.length := by rw [hflen]; exact hcols
  refine ⟨hflen, ?_, ?_, ?_, ?_, ?_⟩ <;> simp [train_model, hrc, hcols']

/-- C1 witness: a 1-row, 26-column file triggers the mismatch path. -/
theorem C1_witness :
    FEATURE_NAMES.length = 27 ∧
    Line.fatalFeatureCountMismatch ∈
      (train_model "d" "m" "j" true ⟨[List.replicate 26 (Val.finite 0)]⟩ 0 false).printed ∧
    (train_model "d" "m" "j" true ⟨[List.replicate 26 (Val.finite 0)]⟩ 0 false).outcome = .returned ∧
    (train_model "d" "m" "j" true ⟨[List.replicate 26 (Val.finite 0)]⟩ 0 false).events = [] ∧
    (train_model "d" "m" "j" true ⟨[List.replicate 26 (Val.finite 0)]⟩ 0 false).onnx = none ∧
    (train_model "d" "m" "j" true ⟨[List.replicate 26 (Val.finite 0)]⟩ 0 false).metadata = none :=
  C1_schema_mismatch_halts_no_output "d" "m" "j"
    ⟨[List.replicate 26 (Val.finite 0)]⟩ 0 false
    (by decide)
    (by intro r hr; simp [CsvTable.ncols] at hr ⊢; simp [hr])
    (by decide)

/-- C3: the Splitter deterministically partitions any cleaned dataset (of at
least 2 rows, below which sklearn raises) into disjoint train/test index
sets of sizes n - ceil(0.3 n) and ceil(0.3 n); repeated runs on identical
input produce identical partitions, and a 1000-row dataset yields exactly
700 training and 300 evaluation rows. -/
theorem C3_splitter_deterministic_70_30 (rows : List Row)
    (h2 : 2 ≤ rows.length) :
    ∃ tr te, train_test_split rows = .ok (tr, te) ∧
      (∀ rows2, rows2 = rows → train_test_split rows2 = .ok (tr, te)) ∧
      tr = select rows ((shuffledIndices rows.length).drop (nTest rows.length)) ∧
      te = select rows ((shuffledIndices rows.length).take (nTest rows.length)) ∧
      List.Disjoint ((shuffledIndices rows.length).drop (nTest rows.length))
        ((shuffledIndices rows.length).take (nTest rows.length)) ∧
      tr.length = rows.length - nTest rows.length ∧
      te.length = nTest rows.length ∧
      (rows.length = 1000 → tr.length = 700 ∧ te.length = 300) := by
  have hok := train_test_split_ok rows h2
  have hnt : nTest rows.length ≤ rows.length :=
    Nat.le_of_lt (nTest_lt rows.length h2)
  have htr : (select rows ((shuffledIndices rows.length).drop (nTest rows.length))).length
      = rows.length - nTest rows.length := by
    rw [select_length, List.length_drop, shuffledIndices_length]
  have hte : (select rows ((shuffledIndices rows.length).take (nTest rows.length))).length
      = nTest rows.length := by
    rw [select_length, List.length_take, shuffledIndices_length,
      Nat.min_eq_left hnt]
  refine ⟨_, _, hok, ?_, rfl, rfl, ?_, htr, hte, ?_⟩
  · intro rows2 h
    rw [h, hok]
  · exact (List.disjoint_take_drop (shuffledIndices_nodup rows.length)
      (Nat.le_refl _)).symm
  · intro h1000
    rw [htr, hte, h1000]
    constructor <;> rfl

/-- C3 witness: a concrete 2-row cleaned dataset. -/
theorem C3_witness :
    ∃ tr te, train_test_split [row27, row27] = .ok (tr, te) ∧
      (∀ rows2, rows2 = [row27, row27] → train_test_split rows2 = .ok (tr, te)) ∧
      tr = select [row27, row27] ((shuffledIndices 2).drop (nTest 2)) ∧
      te = select [row27, row27] ((shuffledIndices 2).take (nTest 2)) ∧
      List.Disjoint ((shuffledIndices 2).drop (nTest 2))
        ((shuffledIndices 2).take (nTest 2)) ∧
      tr.length = 2 - nTest 2 ∧
      te.length = nTest 2 ∧
      (2 = 1000 → tr.length = 700 ∧ te.length = 300) :=
  C3_splitter_deterministic_70_30 [row27, row27] (by decide)

/-- C4: whenever the data that reaches the Splitter would leave the
TrainingSet empty, the pipeline fails fatally (uncaught `ValueError`, the
spec's `TrainingFailure`) and writes neither output file. -/
theorem C4_empty_trainingset_fatal_no_output
    (dp mp mdp : String) (t : CsvTable) (now : Nat) (cf : Bool)
    (hne : t.rows ≠ []) (hcols : t.ncols = FEATURE_NAMES.length)
    (hempty : (clean t.rows).length - nTest (clean t.rows).length = 0) :
    (train_model dp mp mdp true t now cf).outcome = .raised .trainingFailure ∧
    (train_model dp mp mdp true t now cf).events = [] ∧
    (train_model dp mp mdp true t now cf).onnx = none ∧
    (train_model dp mp mdp true t now cf).metadata = none := by
  have hrc := read_csv_ok t hne
  have hle : (clean t.rows).length ≤ 1 := by
    revert hempty; unfold nTest; omega
  have hsp := train_test_split_err (clean t.rows) hle
  refine ⟨?_, ?_, ?_, ?_⟩ <;> simp [train_model, hrc, hcols, hsp]

/-- C4 witness: one 27-column row cleans to a 1-row dataset, whose 70% train
share is empty. -/
theorem C4_witness :
    (train_model "d" "m" "j" true ⟨[row27]⟩ 0 false).outcome = .raised .trainingFailure ∧
    (train_model "d" "m" "j" true ⟨[row27]⟩ 0 false).events = [] ∧
    (train_model "d" "m" "j" true ⟨[row27]⟩ 0 false).onnx = none ∧
    (train_model "d" "m" "j" true ⟨[row27]⟩ 0 false).metadata = none :=
  C4_empty_trainingset_fatal_no_output "d" "m" "j" ⟨[row27]⟩ 0 false
    (by decide) (by decide) (by decide)

/-- C5: every run either completes, writing the model and then the metadata
file, or is fatal: zero output files are written (write-or-nothing) and a
human-readable diagnostic (a FATAL ERROR line or the uncaught exception's
traceback) is produced. -/
theorem C5_fatal_errors_write_nothing
    (dp mp mdp : String) (fe : Bool) (t : CsvTable) (now : Nat) (cf : Bool) :
    ((train_model dp mp mdp fe t now cf).events = [.wroteModel, .wroteMetadata] ∧
      (train_model dp mp mdp fe t now cf).outcome = .returned) ∨
    ((train_model dp mp mdp fe t now cf).events = [] ∧
      diagnosticProduced (train_model dp mp mdp fe t now cf) = true) := by
  rcases train_model_dichotomy dp mp mdp fe t now cf with ⟨heq, -, -⟩ | ⟨h1, -, -, h4⟩
  · left
    rw [heq]
    exact ⟨rfl, rfl⟩
  · right
    exact ⟨h1, h4⟩

/-- C6: the metadata file is written only in runs that also write the model
artifact, strictly after it (the event trace is exactly model-then-metadata),
and never in a run where any stage failed. -/
theorem C6_metadata_strictly_after_model
    (dp mp mdp : String) (fe : Bool) (t : CsvTable) (now : Nat) (cf : Bool)
    (h : Ev.wroteMetadata ∈ (train_model dp mp mdp fe t now cf).events) :
    (train_model dp mp mdp fe t now cf).events = [.wroteModel, .wroteMetadata] ∧
    (train_model dp mp mdp fe t now cf).outcome = .returned ∧
    (train_model dp mp mdp fe t now cf).onnx.isSome = true ∧
    (train_model dp mp mdp fe t now cf).metadata.isSome = true ∧
    diagnosticProduced (train_model dp mp mdp fe t now cf) = false := by
  rcases train_model_dichotomy dp mp mdp fe t now cf with ⟨heq, -, -⟩ | ⟨h1, -, -, -⟩
  · rw [heq] at h ⊢
    refine ⟨rfl, rfl, rfl, rfl, ?_⟩
    simp [diagnosticProduced, successResult_no_fatal, successResult,
      Line.isFatalErr]
  · rw [h1] at h
    cases h

/-- C6 witness: a successful 2-row run writes both files. -/
theorem C6_witness :
    (train_model "d" "m" "j" true ⟨[row27, row27]⟩ 0 false).events = [.wroteModel, .wroteMetadata] ∧
    (train_model "d" "m" "j" true ⟨[row27, row27]⟩ 0 false).outcome = .returned ∧
    (train_model "d" "m" "j" true ⟨[row27, row27]⟩ 0 false).onnx.isSome = true ∧
    (train_model "d" "m" "j" true ⟨[row27, row27]⟩ 0 false).metadata.isSome = true ∧
    diagnosticProduced (train_model "d" "m" "j" true ⟨[row27, row27]⟩ 0 false) = false :=
  C6_metadata_strictly_after_model "d" "m" "j" true ⟨[row27, row27]⟩ 0 false
    (by decide)

/-- C7: any metadata record the pipeline writes carries exactly the model
kind, the epoch-seconds timestamp, the source data path, the TrainingSet
size, the schema length (27) and the ordered feature-name list (the
evaluation statistic is the record's remaining field); a 1000-row cleaned
dataset gives `training_samples = 700`. -/
theorem C7_metadata_fields (dp mp mdp : String) (fe : Bool) (t : CsvTable)
    (now : Nat) (cf : Bool) (md : Metadata)
    (h : (train_model dp mp mdp fe t now cf).metadata = some md) :
    md.model_type = "IsolationForest" ∧
    md.training_timestamp_utc = now ∧
    md.training_data_path = dp ∧
    md.training_samples = (clean t.rows).length - nTest (clean t.rows).length ∧
    md.num_features = FEATURE_NAMES.length ∧
    md.num_features = 27 ∧
    md.feature_names_ordered = FEATURE_NAMES ∧
    ((clean t.rows).length = 1000 → md.training_samples = 700) := by
  rcases train_model_dichotomy dp mp mdp fe t now cf with ⟨heq, -, -⟩ | ⟨-, -, h3, -⟩
  · rw [heq] at h
    simp only [successResult, Option.some.injEq] at h
    subst h
    refine ⟨rfl, rfl, rfl, rfl, rfl, ?_, rfl, ?_⟩
    · show FEATURE_NAMES.length = 27
      decide
    · intro h1000
      show (clean t.rows).length - nTest (clean t.rows).length = 700
      rw [h1000]
      decide
  · rw [h3] at h
    cases h

/-- C7 witness: the concrete metadata of a successful 2-row run. -/
theorem C7_witness :
    (⟨"IsolationForest", 5, "d", 1, 27, FEATURE_NAMES, 0⟩ : Metadata).model_type = "IsolationForest" ∧
    (⟨"IsolationForest", 5, "d", 1, 27, FEATURE_NAMES, 0⟩ : Metadata).training_timestamp_utc = 5 ∧
    (⟨"IsolationForest", 5, "d", 1, 27, FEATURE_NAMES, 0⟩ : Metadata).training_data_path = "d" ∧
    (⟨"IsolationForest", 5, "d", 1, 27, FEATURE_NAMES, 0⟩ : Metadata).training_samples
      = (clean (CsvTable.mk [row27, row27]).rows).length
          - nTest (clean (CsvTable.mk [row27, row27]).rows).length ∧
    (⟨"IsolationForest", 5, "d", 1, 27, FEATURE_NAMES, 0⟩ : Metadata).num_features = FEATURE_NAMES.length ∧
    (⟨"IsolationForest", 5, "d", 1, 27, FEATURE_NAMES, 0⟩ : Metadata).num_features = 27 ∧
    (⟨"IsolationForest", 5, "d", 1, 27, FEATURE_NAMES, 0⟩ : Metadata).feature_names_ordered = FEATURE_NAMES ∧
    ((clean (CsvTable.mk [row27, row27]).rows).length = 1000 →
      (⟨"IsolationForest", 5, "d", 1, 27, FEATURE_NAMES, 0⟩ : Metadata).training_samples = 700) :=
  C7_metadata_fields "d" "m" "j" true ⟨[row27, row27]⟩ 5 false
    ⟨"IsolationForest", 5, "d", 1, 27, FEATURE_NAMES, 0⟩
    (by
      rw [train_model_succeeds "d" "m" "j" ⟨[row27, row27]⟩ 5
        (by decide) (by decide) (by decide)]
      rfl)

/-- C8: any ONNX model the pipeline exports declares exactly one input
tensor, of float32 element type, with shape (variable batch, N) where N is
the Feature Schema length (27). -/
theorem C8_onnx_single_float32_input (dp mp mdp : String) (fe : Bool)
    (t : CsvTable) (now : Nat) (cf : Bool) (om : OnnxModel)
    (h : (train_model dp mp mdp fe t now cf).onnx = some om) :
    om.inputs = [⟨"float_input", .float32, [none, some FEATURE_NAMES.length]⟩] ∧
    om.inputs.length = 1 ∧
    FEATURE_NAMES.length = 27 := by
  rcases train_model_dichotomy dp mp mdp fe t now cf with ⟨heq, -, -⟩ | ⟨-, h2, -, -⟩
  · rw [heq] at h
    simp only [successResult, Option.some.injEq] at h
    subst h
    exact ⟨rfl, rfl, by decide⟩
  · rw [h2] at h
    cases h

/-- C8 witness: the concrete exported graph of a successful 2-row run. -/
theorem C8_witness :
    (⟨[⟨"float_input", .float32, [none, some 27]⟩]⟩ : OnnxModel).inputs
      = [⟨"float_input", .float32, [none, some FEATURE_NAMES.length]⟩] ∧
    (⟨[⟨"float_input", .float32, [none, some 27]⟩]⟩ : OnnxModel).inputs.length = 1 ∧
    FEATURE_NAMES.length = 27 :=
  C8_onnx_single_float32_input "d" "m" "j" true ⟨[row27, row27]⟩ 5 false
    ⟨[⟨"float_input", .float32, [none, some 27]⟩]⟩ (by decide)

/-- C9 counterexample: a file that cleans to a single row is below the
200-sample threshold and the warning is emitted, yet the pipeline does not
complete: the split raises and no output file is written — refuting the
claim that every sub-threshold dataset still completes with both files. -/
theorem C9_counterexample :
    (clean (CsvTable.mk [row27]).rows).length < 200 ∧
    (train_model "d" "m" "j" true ⟨[row27]⟩ 0 false).warned = true ∧
    Line.warnSmallDataset ∈ (train_model "d" "m" "j" true ⟨[row27]⟩ 0 false).printed ∧
    (train_model "d" "m" "j" true ⟨[row27]⟩ 0 false).events = [] ∧
    (train_model "d" "m" "j" true ⟨[row27]⟩ 0 false).outcome ≠ .returned := by
  decide

/-- C9 (amended): if the cleaned dataset is below the 200-sample threshold
but has at least 2 rows (so the split and training can succeed) and the
converter succeeds, the pipeline emits the low-data warning and still
completes, producing both output files. -/
theorem C9_amended_low_data_warns_and_completes
    (dp mp mdp : String) (t : CsvTable) (now : Nat)
    (hne : t.rows ≠ []) (hcols : t.ncols = FEATURE_NAMES.length)
    (h2 : 2 ≤ (clean t.rows).length) (hsmall : (clean t.rows).length < 200) :
    (train_model dp mp mdp true t now false).warned = true ∧
    Line.warnSmallDataset ∈ (train_model dp mp mdp true t now false).printed ∧
    (train_model dp mp mdp true t now false).events = [.wroteModel, .wroteMetadata] ∧
    (train_model dp mp mdp true t now false).outcome = .returned := by
  rw [train_model_succeeds dp mp mdp t now hne hcols h2]
  refine ⟨?_, ?_, rfl, rfl⟩
  · simp [successResult, hsmall]
  · simp [successResult, hsmall]

/-- C9 witness: a 2-row clean dataset (< 200) warns and completes. -/
theorem C9_witness :
    (train_model "d" "m" "j" true ⟨[row27, row27]⟩ 0 false).warned = true ∧
    Line.warnSmallDataset ∈ (train_model "d" "m" "j" true ⟨[row27, row27]⟩ 0 false).printed ∧
    (train_model "d" "m" "j" true ⟨[row27, row27]⟩ 0 false).events = [.wroteModel, .wroteMetadata] ∧
    (train_model "d" "m" "j" true ⟨[row27, row27]⟩ 0 false).outcome = .returned :=
  C9_amended_low_data_warns_and_completes "d" "m" "j" ⟨[row27, row27]⟩ 0
    (by decide) (by decide) (by decide) (by decide)

/-- C10: the missing-input-file and schema-mismatch paths print a diagnostic
and return `None` rather than raising, so the `__main__` invocation ends
with exit status 0. -/
theorem C10_validation_paths_return_none
    (dp mp mdp : String) (t : CsvTable) (now : Nat) (cf : Bool) :
    ((train_model dp mp mdp false t now cf).outcome = .returned ∧
      exitCode (train_model dp mp mdp false t now cf) = 0) ∧
    (t.rows ≠ [] → t.ncols ≠ FEATURE_NAMES.length →
      (train_model dp mp mdp true t now cf).outcome = .returned ∧
      exitCode (train_model dp mp mdp true t now cf) = 0) := by
  constructor
  · constructor <;> simp [train_model, exitCode]
  · intro hne hcols
    have hrc := read_csv_ok t hne
    constructor <;> simp [train_model, exitCode, hrc, hcols]

/-- C10 witness: a missing file and a 26-column file both end with exit
status 0. -/
theorem C10_witness :
    ((train_model "d" "m" "j" false ⟨[List.replicate 26 (Val.finite 0)]⟩ 0 false).outcome = .returned ∧
      exitCode (train_model "d" "m" "j" false ⟨[List.replicate 26 (Val.finite 0)]⟩ 0 false) = 0) ∧
    ((train_model "d" "m" "j" true ⟨[List.replicate 26 (Val.finite 0)]⟩ 0 false).outcome = .returned ∧
      exitCode (train_model "d" "m" "j" true ⟨[List.replicate 26 (Val.finite 0)]⟩ 0 false) = 0) :=
  ⟨(C10_validation_paths_return_none "d" "m" "j"
      ⟨[List.replicate 26 (Val.finite 0)]⟩ 0 false).1,
   (C10_validation_paths_return_none "d" "m" "j"
      ⟨[List.replicate 26 (Val.finite 0)]⟩ 0 false).2 (by decide) (by decide)⟩

/-- C2 witness: a 2-row dataset with one infinite row cleans to 1 row; the
surviving row is finite and is an original row. -/
theorem C2_witness :
    (clean [row27, [Val.posInf]]).length
      = ([row27, [Val.posInf]] : List Row).length
        - ([row27, [Val.posInf]] : List Row).countP
            (fun r => r.any (fun v => !v.isFinite)) ∧
    row27.all Val.isFinite = true ∧
    row27 ∈ ([row27, [Val.posInf]] : List Row) :=
  ⟨(C2_cleaner_drops_nonfinite_rows [row27, [Val.posInf]]).1,
   (C2_cleaner_drops_nonfinite_rows [row27, [Val.posInf]]).2.1 row27 (by decide),
   (C2_cleaner_drops_nonfinite_rows [row27, [Val.posInf]]).2.2 row27 (by decide)⟩
